import Mathlib

/-!
Verification of the financial-news-sentinel repository.

Shallow embedding of the Python sources:
  - src/openbb_market_data.py : OpenBBMarketDataProvider (TTL cache, fetchers)
  - src/fred_alerts.py        : FREDEconomicMonitor (threshold change detection)
  - src/polygon_scraper.py    : PolygonNewsScraper (watchlist, news rows)

Modelling conventions:
  - Python floats are embedded as rationals (ℚ); `round(x, 2)` is `round2`.
  - `datetime` values are embedded as an abstract timestamp type `Int`;
    `time.time()` instants are rationals passed in explicitly as `now`.
  - Remote OpenBB calls (network fetch + dataframe parsing inside the same
    `try` block) are passed in as `Except Unit α` arguments: `.error ()` is
    an exception raised by the call, `.ok` is a parsed dataframe.
  - Python dicts used as stores are embedded as functions `String → Option V`.
    The single heterogeneous `self._cache` dict is viewed at each value type
    (its key namespaces `openbb_price:`, `openbb_fred:`, ... are disjoint).
  - Mutation is explicit state passing: a method that mutates returns the
    new store as the second component of its result.
-/

/-- Truthiness of a Python `float | None` value: `None` and `0.0` are falsy,
every other float is truthy. Used for `if threshold_pct:`-style guards. -/
def pyTruthy : Option ℚ → Bool
  | none => false
  | some q => q != 0

/-- Python `round(x, 2)`: round to two decimal places. -/
def round2 (q : ℚ) : ℚ := (round (q * 100) : ℚ) / 100

/-! ## OpenBBMarketDataProvider cache (src/openbb_market_data.py)

`CacheEntry` and the `_get_cached` / `_set_cached` pair, lines 42-119. -/

/-- `CacheEntry`: cached payload with the `time.time()` instant it was stored. -/
structure CacheEntry (α : Type) where
  data : α
  created_at : ℚ

/-- The `self._cache` dict, viewed at one payload type. -/
def Cache (α : Type) : Type := String → Option (CacheEntry α)

/-- `_get_cached`: return the cached value if the entry is younger than the
TTL; an expired entry is deleted. Returns the (possibly shrunk) cache. -/
def get_cached {α : Type} (cache_ttl_seconds now : ℚ) (cache : Cache α)
    (key : String) : Option α × Cache α :=
  match cache key with
  | some entry =>
    if now - entry.created_at < cache_ttl_seconds then
      (some entry.data, cache)
    else
      (none, fun k => if k = key then none else cache k)
  | none => (none, cache)

/-- `_set_cached`: store a value under `key` stamped with the current time. -/
def set_cached {α : Type} (now : ℚ) (cache : Cache α) (key : String)
    (data : α) : Cache α :=
  fun k => if k = key then some ⟨data, now⟩ else cache k

/-- C4: a fresh entry is served while strictly younger than the TTL; once the
TTL has elapsed the lookup misses and deletes exactly that entry; a key never
set always misses. -/
theorem cache_ttl_roundtrip :
    (∀ (α : Type) (ttl t0 t : ℚ) (cache : Cache α) (key : String) (data : α),
      t - t0 < ttl →
      get_cached ttl t (set_cached t0 cache key data) key =
        (some data, set_cached t0 cache key data)) ∧
    (∀ (α : Type) (ttl t0 t : ℚ) (cache : Cache α) (key : String) (data : α),
      ttl ≤ t - t0 →
      (get_cached ttl t (set_cached t0 cache key data) key).1 = none ∧
      (get_cached ttl t (set_cached t0 cache key data) key).2 key = none ∧
      ∀ k, k ≠ key →
        (get_cached ttl t (set_cached t0 cache key data) key).2 k =
          set_cached t0 cache key data k) ∧
    (∀ (α : Type) (ttl t : ℚ) (cache : Cache α) (key : String),
      cache key = none → (get_cached ttl t cache key).1 = none) := by
  refine ⟨?_, ?_, ?_⟩
  · intro α ttl t0 t cache key data h
    simp [get_cached, set_cached, h]
  · intro α ttl t0 t cache key data h
    refine ⟨?_, ?_, ?_⟩
    · simp [get_cached, set_cached, not_lt.mpr h]
    · simp [get_cached, set_cached, not_lt.mpr h]
    · intro k hk
      simp [get_cached, set_cached, not_lt.mpr h, hk]
  · intro α ttl t cache key h
    simp [get_cached, h]

/-- Witness for C4 at a concrete type, times and key. -/
theorem cache_ttl_roundtrip_witness :
    ((3 : ℚ) - 1 < 900 ∧
      get_cached 900 3 (set_cached 1 (fun _ => none) "openbb_price:AAPL:latest" (5 : ℚ))
        "openbb_price:AAPL:latest" =
        (some 5, set_cached 1 (fun _ => none) "openbb_price:AAPL:latest" 5)) ∧
    ((900 : ℚ) ≤ 1000 - 1 ∧
      (get_cached 900 1000 (set_cached 1 (fun _ => none) "openbb_price:AAPL:latest" (5 : ℚ))
        "openbb_price:AAPL:latest").1 = none) := by
  constructor
  · exact ⟨by norm_num, cache_ttl_roundtrip.1 ℚ 900 1 3 (fun _ => none) _ 5 (by norm_num)⟩
  · exact ⟨by norm_num,
      ((cache_ttl_roundtrip.2.1 ℚ 900 1 1000 (fun _ => none) _ 5 (by norm_num)).1)⟩

/-! ## FREDEconomicMonitor (src/fred_alerts.py)

`EconomicAlert`, `get_indicator_value` (lines 120-150), `check_indicator`
(lines 152-235) and `check_all_indicators` (lines 237-263). -/

/-- One indicator config dict. A field is `none` when the key is absent and
`some none` when the key is present holding Python `None` (as `threshold_abs`
does for `cpi` and `sp500` in `DEFAULT_INDICATORS`). -/
structure IndicatorConfig where
  symbol : String
  name : String
  threshold_pct : Option (Option ℚ)
  threshold_abs : Option (Option ℚ)

/-- `EconomicAlert` dataclass (the formatted `message` string, built from
float formatting, is not modelled). -/
structure EconomicAlert where
  indicator : String
  name : String
  current_value : ℚ
  previous_value : ℚ
  change_pct : ℚ
  change_abs : ℚ
  severity : String
  timestamp : Int
deriving DecidableEq

/-- One `self._last_values[key]` record. -/
structure LastValue where
  value : ℚ
  date : Int
  checked_at : Int
deriving DecidableEq

/-- The `self._last_values` dict. -/
def LastValues : Type := String → Option LastValue

/-- `get_indicator_value`: latest row of the fetched FRED series, or `None`
when disabled, on exception, or on an empty dataframe. The fetched dataframe
is a list of (date index, value) rows, oldest first. -/
def get_indicator_value (enabled : Bool)
    (fetch : Except Unit (List (Int × ℚ))) : Option (ℚ × Int) :=
  if !enabled then none
  else
    match fetch with
    | .error _ => none
    | .ok rows =>
      match rows.getLast? with
      | none => none
      | some (latest_date, latest_value) => some (latest_value, latest_date)

/-- The percent change computed in `check_indicator` line 181, guarded
against a zero previous value. -/
def fredChangePct (current_value prev_value : ℚ) : ℚ :=
  if prev_value != 0 then (current_value - prev_value) / prev_value * 100 else 0

/-- The severity chosen in `check_indicator` lines 192-196 (Python parses the
bodies of the `if`/`elif` as conditional expressions guarded by the
truthiness of `threshold_pct`). -/
def fredSeverity (threshold_pct : Option ℚ) (change_pct : ℚ) : String :=
  if pyTruthy threshold_pct && decide (|change_pct| ≥ threshold_pct.getD 0 * 2) then "high"
  else if pyTruthy threshold_pct && decide (|change_pct| ≥ threshold_pct.getD 0) then "medium"
  else "low"

/-- `check_indicator`: compare the freshly fetched value against the stored
last value, emit an alert on a significant change, otherwise store the fresh
value. `now` is `datetime.now()` at the update point. -/
def check_indicator (enabled : Bool) (now : Int)
    (fetch : Except Unit (List (Int × ℚ))) (key : String)
    (config : IndicatorConfig) (last_values : LastValues) :
    Option EconomicAlert × LastValues :=
  let threshold_pct := config.threshold_pct.getD (some 5)
  let threshold_abs := config.threshold_abs.getD none
  match get_indicator_value enabled fetch with
  | none => (none, last_values)
  | some (current_value, current_date) =>
    let alert? : Option EconomicAlert :=
      match last_values key with
      | none => none
      | some prev =>
        let prev_value := prev.value
        let change_abs := current_value - prev_value
        let change_pct := fredChangePct current_value prev_value
        let is_significant :=
          (pyTruthy threshold_pct && decide (|change_pct| ≥ threshold_pct.getD 0)) ||
          (pyTruthy threshold_abs && decide (|change_abs| ≥ threshold_abs.getD 0))
        if is_significant then
          some
            { indicator := key
              name := config.name
              current_value := current_value
              previous_value := prev_value
              change_pct := round2 change_pct
              change_abs := round2 change_abs
              severity := fredSeverity threshold_pct change_pct
              timestamp := current_date }
        else none
    match alert? with
    | some alert => (some alert, last_values)
    | none =>
      (none, fun k =>
        if k = key then some ⟨current_value, current_date, now⟩ else last_values k)

/-- Helper: full characterization of `check_indicator` when a previous value
is stored and the fetch succeeds. -/
theorem check_indicator_eq_of (enabled : Bool) (now : Int)
    (fetch : Except Unit (List (Int × ℚ))) (key : String) (config : IndicatorConfig)
    (lv : LastValues) (prev : LastValue) (v : ℚ) (d : Int)
    (hprev : lv key = some prev)
    (hfetch : get_indicator_value enabled fetch = some (v, d)) :
    check_indicator enabled now fetch key config lv =
      if (pyTruthy (config.threshold_pct.getD (some 5)) &&
            decide (|fredChangePct v prev.value| ≥ (config.threshold_pct.getD (some 5)).getD 0)) ||
         (pyTruthy (config.threshold_abs.getD none) &&
            decide (|v - prev.value| ≥ (config.threshold_abs.getD none).getD 0)) then
        (some { indicator := key, name := config.name, current_value := v,
                previous_value := prev.value,
                change_pct := round2 (fredChangePct v prev.value),
                change_abs := round2 (v - prev.value),
                severity := fredSeverity (config.threshold_pct.getD (some 5))
                  (fredChangePct v prev.value),
                timestamp := d }, lv)
      else
        (none, fun k => if k = key then some ⟨v, d, now⟩ else lv k) := by
  unfold check_indicator
  rw [hfetch, hprev]
  split <;> simp_all
  split <;> simp_all
  rename_i heq
  exact (if_neg (by push_neg; exact heq)).symm

/-- Helper: `fredChangePct` written in the spec's form. -/
theorem fredChangePct_eq (v p : ℚ) :
    fredChangePct v p = if p = 0 then 0 else 100 * (v - p) / p := by
  rcases eq_or_ne p 0 with h | h
  · simp [fredChangePct, h]
  · rw [if_neg h]
    unfold fredChangePct
    rw [if_pos (by simpa using h)]
    ring

/-- Helper: case analysis of `fredSeverity`. -/
theorem fredSeverity_cases (tp : Option ℚ) (cp : ℚ) :
    (pyTruthy tp = true →
      fredSeverity tp cp =
        if 2 * tp.getD 0 ≤ |cp| then "high"
        else if tp.getD 0 ≤ |cp| then "medium"
        else "low") ∧
    (pyTruthy tp = false → fredSeverity tp cp = "low") ∧
    (fredSeverity tp cp = "high" ∨ fredSeverity tp cp = "medium" ∨
      fredSeverity tp cp = "low") := by
  refine ⟨?_, ?_, ?_⟩
  · intro h
    simp only [fredSeverity, h, Bool.true_and, decide_eq_true_eq, ge_iff_le,
      mul_comm (tp.getD 0) 2]
  · intro h
    simp [fredSeverity, h]
  · unfold fredSeverity
    split
    · exact Or.inl rfl
    · split
      · exact Or.inr (Or.inl rfl)
      · exact Or.inr (Or.inr rfl)

/-- Helper: every alert produced by `check_indicator` has the severity
computed by `fredSeverity` from the stored previous value. -/
theorem check_indicator_alert_form (enabled : Bool) (now : Int)
    (fetch : Except Unit (List (Int × ℚ))) (key : String) (config : IndicatorConfig)
    (lv : LastValues) (a : EconomicAlert)
    (ha : (check_indicator enabled now fetch key config lv).1 = some a) :
    ∃ prev v, lv key = some prev ∧
      a.severity = fredSeverity (config.threshold_pct.getD (some 5))
        (fredChangePct v prev.value) := by
  unfold check_indicator at ha
  rcases h1 : get_indicator_value enabled fetch with _ | ⟨v, d⟩ <;> rw [h1] at ha
  · simp at ha
  · rcases h2 : lv key with _ | prev <;> simp only [h2] at ha
    · simp at ha
    · refine ⟨prev, v, rfl, ?_⟩
      split at ha
      · rename_i heq
        split at heq
        · cases heq
          cases ha
          rfl
        · cases heq
      · simp at ha

/-- C1: with a stored previous value and a successful fetch of value `v`,
`check_indicator` returns an alert iff the percent change reaches a
configured nonzero `threshold_pct` or the absolute change reaches a
configured nonzero `threshold_abs` (with `change_pct = 0` when the previous
value is `0`); the alert carries both changes rounded to 2 decimals. -/
theorem check_indicator_alert_iff (enabled : Bool) (now : Int)
    (fetch : Except Unit (List (Int × ℚ))) (key : String)
    (config : IndicatorConfig) (lv : LastValues) (prev : LastValue) (v : ℚ) (d : Int)
    (hprev : lv key = some prev)
    (hfetch : get_indicator_value enabled fetch = some (v, d)) :
    ((check_indicator enabled now fetch key config lv).1.isSome ↔
      (pyTruthy (config.threshold_pct.getD (some 5)) = true ∧
        (config.threshold_pct.getD (some 5)).getD 0 ≤
          |if prev.value = 0 then 0 else 100 * (v - prev.value) / prev.value|) ∨
      (pyTruthy (config.threshold_abs.getD none) = true ∧
        (config.threshold_abs.getD none).getD 0 ≤ |v - prev.value|)) ∧
    ∀ a, (check_indicator enabled now fetch key config lv).1 = some a →
      a.change_abs = round2 (v - prev.value) ∧
      a.change_pct =
        round2 (if prev.value = 0 then 0 else 100 * (v - prev.value) / prev.value) := by
  rw [check_indicator_eq_of enabled now fetch key config lv prev v d hprev hfetch]
  rw [← fredChangePct_eq]
  constructor
  · split
    · rename_i hC
      simp only [Option.isSome_some, true_iff]
      simpa [ge_iff_le] using hC
    · rename_i hC
      simp only [Option.isSome_none, false_iff]
      simpa [ge_iff_le] using hC
  · intro a ha
    split at ha
    · cases ha
      exact ⟨rfl, rfl⟩
    · cases ha

/-- C2: every alert's severity is one of "high", "medium", "low"; when the
effective `threshold_pct` is truthy the severity follows the
high / medium / low case split on `|change_pct|` against `threshold_pct`
and `2 * threshold_pct`; when it is `None` or `0` the severity is "low". -/
theorem check_indicator_severity (enabled : Bool) (now : Int)
    (fetch : Except Unit (List (Int × ℚ))) (key : String)
    (config : IndicatorConfig) (lv : LastValues) (a : EconomicAlert)
    (ha : (check_indicator enabled now fetch key config lv).1 = some a) :
    (a.severity = "high" ∨ a.severity = "medium" ∨ a.severity = "low") ∧
    ∀ prev v d, lv key = some prev →
      get_indicator_value enabled fetch = some (v, d) →
      (pyTruthy (config.threshold_pct.getD (some 5)) = true →
        a.severity =
          if 2 * (config.threshold_pct.getD (some 5)).getD 0 ≤
              |fredChangePct v prev.value| then "high"
          else if (config.threshold_pct.getD (some 5)).getD 0 ≤
              |fredChangePct v prev.value| then "medium"
          else "low") ∧
      (pyTruthy (config.threshold_pct.getD (some 5)) = false →
        a.severity = "low") := by
  constructor
  · obtain ⟨prev, v, _, hsev⟩ :=
      check_indicator_alert_form enabled now fetch key config lv a ha
    rw [hsev]
    exact (fredSeverity_cases _ _).2.2
  · intro prev v d hprev hfetch
    rw [check_indicator_eq_of enabled now fetch key config lv prev v d hprev hfetch] at ha
    have hsev : a.severity =
        fredSeverity (config.threshold_pct.getD (some 5)) (fredChangePct v prev.value) := by
      split at ha
      · cases ha
        rfl
      · cases ha
    rw [hsev]
    exact ⟨(fredSeverity_cases _ _).1, (fredSeverity_cases _ _).2.1⟩

/-- Helper: when the fetch yields nothing, `check_indicator` is a no-op
returning `None`. -/
theorem check_indicator_fetch_none (enabled : Bool) (now : Int)
    (fetch : Except Unit (List (Int × ℚ))) (key : String)
    (config : IndicatorConfig) (lv : LastValues)
    (h : get_indicator_value enabled fetch = none) :
    check_indicator enabled now fetch key config lv = (none, lv) := by
  unfold check_indicator
  rw [h]

/-- Helper: with no stored previous value, `check_indicator` stores the
fetched value and returns `None`. -/
theorem check_indicator_no_prev (enabled : Bool) (now : Int)
    (fetch : Except Unit (List (Int × ℚ))) (key : String)
    (config : IndicatorConfig) (lv : LastValues) (v : ℚ) (d : Int)
    (h : get_indicator_value enabled fetch = some (v, d)) (h2 : lv key = none) :
    check_indicator enabled now fetch key config lv =
      (none, fun k => if k = key then some ⟨v, d, now⟩ else lv k) := by
  unfold check_indicator
  rw [h, h2]

/-- C3: `check_indicator` never touches other keys; it leaves the store
unchanged when it returns an alert or when the fetch fails, and it stores the
freshly fetched value under `key` exactly when the fetch succeeds and no
alert is returned. -/
theorem check_indicator_frame (enabled : Bool) (now : Int)
    (fetch : Except Unit (List (Int × ℚ))) (key : String)
    (config : IndicatorConfig) (lv : LastValues) :
    (∀ k, k ≠ key → (check_indicator enabled now fetch key config lv).2 k = lv k) ∧
    ((check_indicator enabled now fetch key config lv).1.isSome = true →
      (check_indicator enabled now fetch key config lv).2 = lv) ∧
    (get_indicator_value enabled fetch = none →
      (check_indicator enabled now fetch key config lv).2 = lv) ∧
    (∀ v d, get_indicator_value enabled fetch = some (v, d) →
      (check_indicator enabled now fetch key config lv).1 = none →
      (check_indicator enabled now fetch key config lv).2 key = some ⟨v, d, now⟩) := by
  rcases h1 : get_indicator_value enabled fetch with _ | ⟨v0, d0⟩
  · rw [check_indicator_fetch_none enabled now fetch key config lv h1]
    refine ⟨fun k _ => rfl, fun _ => rfl, fun _ => rfl, fun v d hvd _ => ?_⟩
    cases hvd
  · rcases h2 : lv key with _ | prev
    · rw [check_indicator_no_prev enabled now fetch key config lv v0 d0 h1 h2]
      refine ⟨fun k hk => ?_, fun h => ?_, fun h => ?_, fun v d hvd _ => ?_⟩
      · simp [hk]
      · simp at h
      · cases h
      · cases hvd
        simp
    · rw [check_indicator_eq_of enabled now fetch key config lv prev v0 d0 h2 h1]
      split
      · refine ⟨fun k _ => rfl, fun _ => rfl, fun h => ?_, fun v d _ hnone => ?_⟩
        · cases h
        · simp at hnone
      · refine ⟨fun k hk => ?_, fun h => ?_, fun h => ?_, fun v d hvd _ => ?_⟩
        · simp [hk]
        · simp at h
        · cases h
        · cases hvd
          simp

/-- Witness for C1: an alert fires for the 10-year treasury config when the
value moves from 10 to 11 (a 10 percent change against a 5 percent
threshold). -/
theorem check_indicator_alert_iff_witness :
    (check_indicator true 7 (Except.ok [(1, 10), (2, 11)]) "treasury_10y"
        ⟨"DGS10", "10-Year Treasury Rate", some (some 5), some (some (1/10))⟩
        (fun k => if k = "treasury_10y" then some ⟨10, 1, 0⟩ else none)).1.isSome := by
  exact (check_indicator_alert_iff true 7 (Except.ok [(1, 10), (2, 11)]) "treasury_10y"
      ⟨"DGS10", "10-Year Treasury Rate", some (some 5), some (some (1/10))⟩
      (fun k => if k = "treasury_10y" then some ⟨10, 1, 0⟩ else none)
      ⟨10, 1, 0⟩ 11 2 (by simp) rfl).1.mpr
    (Or.inl ⟨rfl, by norm_num⟩)

/-- Witness for C2: the alert of the 10-to-11 move carries severity "high"
(a 10 percent change, twice the 5 percent threshold). -/
theorem check_indicator_severity_witness :
    ({ indicator := "treasury_10y", name := "10-Year Treasury Rate",
       current_value := 11, previous_value := 10, change_pct := 10,
       change_abs := 1, severity := "high", timestamp := 2 } :
        EconomicAlert).severity = "high" ∨
    ({ indicator := "treasury_10y", name := "10-Year Treasury Rate",
       current_value := 11, previous_value := 10, change_pct := 10,
       change_abs := 1, severity := "high", timestamp := 2 } :
        EconomicAlert).severity = "medium" ∨
    ({ indicator := "treasury_10y", name := "10-Year Treasury Rate",
       current_value := 11, previous_value := 10, change_pct := 10,
       change_abs := 1, severity := "high", timestamp := 2 } :
        EconomicAlert).severity = "low" := by
  exact (check_indicator_severity true 7 (Except.ok [(1, 10), (2, 11)]) "treasury_10y"
      ⟨"DGS10", "10-Year Treasury Rate", some (some 5), some (some (1/10))⟩
      (fun k => if k = "treasury_10y" then some ⟨10, 1, 0⟩ else none) _ (by norm_num [check_indicator, get_indicator_value, fredChangePct, fredSeverity, round2, pyTruthy])).1

/-- Witness for C3: with no stored value the fetched value is stored under
the checked key and a foreign key stays untouched. -/
theorem check_indicator_frame_witness :
    (check_indicator true 7 (Except.ok [(1, 10), (2, 11)]) "treasury_10y"
        ⟨"DGS10", "10-Year Treasury Rate", some (some 5), some (some (1/10))⟩
        (fun _ => none)).2 "treasury_10y" = some ⟨11, 2, 7⟩ ∧
    (check_indicator true 7 (Except.ok [(1, 10), (2, 11)]) "treasury_10y"
        ⟨"DGS10", "10-Year Treasury Rate", some (some 5), some (some (1/10))⟩
        (fun _ => none)).2 "cpi" = none := by
  constructor
  · exact (check_indicator_frame true 7 (Except.ok [(1, 10), (2, 11)]) "treasury_10y"
      ⟨"DGS10", "10-Year Treasury Rate", some (some 5), some (some (1/10))⟩
      (fun _ => none)).2.2.2 11 2 rfl rfl
  · exact ((check_indicator_frame true 7 (Except.ok [(1, 10), (2, 11)]) "treasury_10y"
      ⟨"DGS10", "10-Year Treasury Rate", some (some 5), some (some (1/10))⟩
      (fun _ => none)).1 "cpi" (by decide)).trans rfl

/-! ## OpenBBMarketDataProvider fetch operations (src/openbb_market_data.py)

Each operation takes the feature flags, the TTL, the current `time.time()`
instant, the cache viewed at its payload type, and the outcome of the OpenBB
call (`Except.error ()` models an exception raised inside the `try` block,
`Except.ok` the parsed dataframe). -/

/-- Cache key of `get_price` (line 146); `datePart` is `latest` or the iso
string of the requested date. -/
def price_cache_key (ticker datePart : String) : String :=
  "openbb_price:" ++ ticker ++ ":" ++ datePart

/-- `get_price`: cached FMP quote lookup. The fetch yields the `last_price`
column of the quote dataframe when present. -/
def get_price (enabled fmp_enabled : Bool) (ttl now : ℚ) (cache : Cache ℚ)
    (ticker datePart : String) (fetch : Except Unit (Option ℚ)) :
    Option ℚ × Cache ℚ :=
  if !(enabled && fmp_enabled) then (none, cache)
  else
    let key := price_cache_key ticker datePart
    match get_cached ttl now cache key with
    | (some cached, cache1) => (some cached, cache1)
    | (none, cache1) =>
      match fetch with
      | .error _ => (none, cache1)
      | .ok none => (none, cache1)
      | .ok (some price) => (some price, set_cached now cache1 key price)

/-- Cache key of `get_price_change` (line 187). -/
def change_cache_key (ticker startDate endDate : String) : String :=
  "openbb_change:" ++ ticker ++ ":" ++ startDate ++ ":" ++ endDate

/-- `get_price_change`: percent change between the first and last closing
prices of the fetched historical series, rounded to 2 decimals and cached. -/
def get_price_change (enabled fmp_enabled : Bool) (ttl now : ℚ) (cache : Cache ℚ)
    (ticker startDate endDate : String) (fetch : Except Unit (List ℚ)) :
    Option ℚ × Cache ℚ :=
  if !(enabled && fmp_enabled) then (none, cache)
  else
    let key := change_cache_key ticker startDate endDate
    match get_cached ttl now cache key with
    | (some cached, cache1) => (some cached, cache1)
    | (none, cache1) =>
      match fetch with
      | .error _ => (none, cache1)
      | .ok closes =>
        if 2 ≤ closes.length then
          match closes.head?, closes.getLast? with
          | some start_price, some end_price =>
            if 0 < start_price then
              let change_pct := (end_price - start_price) / start_price * 100
              (some (round2 change_pct), set_cached now cache1 key (round2 change_pct))
            else (none, cache1)
          | _, _ => (none, cache1)
        else (none, cache1)

/-- Cache key of `get_intraday_change` (line 231); `dateStr` is today's date. -/
def intraday_cache_key (ticker dateStr : String) : String :=
  "openbb_intraday:" ++ ticker ++ ":" ++ dateStr

/-- `get_intraday_change`: the quote's `change_percent` column, rounded to 2
decimals and cached. -/
def get_intraday_change (enabled fmp_enabled : Bool) (ttl now : ℚ) (cache : Cache ℚ)
    (ticker dateStr : String) (fetch : Except Unit (Option ℚ)) :
    Option ℚ × Cache ℚ :=
  if !(enabled && fmp_enabled) then (none, cache)
  else
    let key := intraday_cache_key ticker dateStr
    match get_cached ttl now cache key with
    | (some cached, cache1) => (some cached, cache1)
    | (none, cache1) =>
      match fetch with
      | .error _ => (none, cache1)
      | .ok none => (none, cache1)
      | .ok (some change_pct) =>
        (some (round2 change_pct), set_cached now cache1 key (round2 change_pct))

/-- Cache key of `get_historical_prices` (line 267). -/
def history_cache_key (ticker : String) (days : Int) : String :=
  "openbb_history:" ++ ticker ++ ":" ++ toString days

/-- `get_historical_prices`: date-keyed closing prices rounded to 2 decimals;
an empty dataframe yields `None`. -/
def get_historical_prices (enabled fmp_enabled : Bool) (ttl now : ℚ)
    (cache : Cache (List (String × ℚ))) (ticker : String) (days : Int)
    (fetch : Except Unit (List (String × ℚ))) :
    Option (List (String × ℚ)) × Cache (List (String × ℚ)) :=
  if !(enabled && fmp_enabled) then (none, cache)
  else
    let key := history_cache_key ticker days
    match get_cached ttl now cache key with
    | (some cached, cache1) => (some cached, cache1)
    | (none, cache1) =>
      match fetch with
      | .error _ => (none, cache1)
      | .ok rows =>
        if rows.isEmpty then (none, cache1)
        else
          let prices := rows.map (fun r => (r.1, round2 r.2))
          (some prices, set_cached now cache1 key prices)

/-- Cache key of `get_company_profile` (line 312). -/
def profile_cache_key (ticker : String) : String := "openbb_profile:" ++ ticker

/-- `get_company_profile`: the profile dict built from a non-empty dataframe
(the dict's fields are opaque here). -/
def get_company_profile {α : Type} (enabled fmp_enabled : Bool) (ttl now : ℚ)
    (cache : Cache α) (ticker : String) (fetch : Except Unit (Option α)) :
    Option α × Cache α :=
  if !(enabled && fmp_enabled) then (none, cache)
  else
    let key := profile_cache_key ticker
    match get_cached ttl now cache key with
    | (some cached, cache1) => (some cached, cache1)
    | (none, cache1) =>
      match fetch with
      | .error _ => (none, cache1)
      | .ok none => (none, cache1)
      | .ok (some profile) => (some profile, set_cached now cache1 key profile)

/-- Cache key of `get_financial_summary` (line 352). -/
def financials_cache_key (ticker : String) : String := "openbb_financials:" ++ ticker

/-- `get_financial_summary`: the financials dict built from a non-empty
dataframe (the dict's fields are opaque here). -/
def get_financial_summary {α : Type} (enabled fmp_enabled : Bool) (ttl now : ℚ)
    (cache : Cache α) (ticker : String) (fetch : Except Unit (Option α)) :
    Option α × Cache α :=
  if !(enabled && fmp_enabled) then (none, cache)
  else
    let key := financials_cache_key ticker
    match get_cached ttl now cache key with
    | (some cached, cache1) => (some cached, cache1)
    | (none, cache1) =>
      match fetch with
      | .error _ => (none, cache1)
      | .ok none => (none, cache1)
      | .ok (some financials) => (some financials, set_cached now cache1 key financials)

/-- Cache key of `get_news` (line 474). -/
def news_cache_key (ticker : String) (limit : Int) : String :=
  "openbb_news:" ++ ticker ++ ":" ++ toString limit

/-- `get_news`: the article dicts of a non-empty dataframe (one opaque row
per article); an empty dataframe yields `None`. -/
def get_news {α : Type} (enabled polygon_enabled : Bool) (ttl now : ℚ)
    (cache : Cache (List α)) (ticker : String) (limit : Int)
    (fetch : Except Unit (List α)) : Option (List α) × Cache (List α) :=
  if !(enabled && polygon_enabled) then (none, cache)
  else
    let key := news_cache_key ticker limit
    match get_cached ttl now cache key with
    | (some cached, cache1) => (some cached, cache1)
    | (none, cache1) =>
      match fetch with
      | .error _ => (none, cache1)
      | .ok articles =>
        if articles.isEmpty then (none, cache1)
        else (some articles, set_cached now cache1 key articles)

/-- Python `a or b` on an optional string: falsy (`None` or empty) falls back. -/
def pyOrStr (a : Option String) (b : String) : String :=
  match a with
  | some s => if s != "" then s else b
  | none => b

/-- `EconomicIndicator` dataclass. -/
structure EconomicIndicator where
  symbol : String
  name : String
  value : ℚ
  date : Int
  change_pct : Option ℚ
deriving DecidableEq

/-- Cache key of `get_economic_indicator` (line 526). -/
def fred_cache_key (symbol : String) : String := "openbb_fred:" ++ symbol

/-- The guarded percent change of `get_economic_indicator` lines 540-543:
computed only when the previous value is nonzero. -/
def econChangePct (latest_value prev_value : ℚ) : Option ℚ :=
  if prev_value != 0 then some ((latest_value - prev_value) / prev_value * 100)
  else none

/-- `get_economic_indicator`: latest FRED value with the percent change from
the second-to-last row when there are at least 2 rows; the change is dropped
when falsy (`None` or `0.0`) and rounded to 2 decimals otherwise. -/
def get_economic_indicator (enabled fred_enabled : Bool) (ttl now : ℚ)
    (cache : Cache EconomicIndicator) (symbol : String) (name : Option String)
    (fetch : Except Unit (List (Int × ℚ))) :
    Option EconomicIndicator × Cache EconomicIndicator :=
  if !(enabled && fred_enabled) then (none, cache)
  else
    let key := fred_cache_key symbol
    match get_cached ttl now cache key with
    | (some cached, cache1) => (some cached, cache1)
    | (none, cache1) =>
      match fetch with
      | .error _ => (none, cache1)
      | .ok rows =>
        match rows.getLast? with
        | none => (none, cache1)
        | some (latest_date, latest_value) =>
          let change_pct : Option ℚ :=
            if 2 ≤ rows.length then
              match rows.dropLast.getLast? with
              | some (_, prev_value) => econChangePct latest_value prev_value
              | none => none
            else none
          let indicator : EconomicIndicator :=
            { symbol := symbol
              name := pyOrStr name symbol
              value := latest_value
              date := latest_date
              change_pct :=
                match change_pct with
                | some c => if c != 0 then some (round2 c) else none
                | none => none }
          (some indicator, set_cached now cache1 key indicator)

/-- `is_significant_move`: compare the intraday change (`days <= 1`) or the
`days`-day percent change against the threshold; `None` when the change is
unavailable or the provider is disabled. -/
def is_significant_move (enabled fmp_enabled : Bool) (ttl now : ℚ)
    (cache : Cache ℚ) (ticker : String) (threshold_pct : ℚ) (days : Int)
    (todayStr startDate endDate : String)
    (fetchIntraday : Except Unit (Option ℚ)) (fetchHist : Except Unit (List ℚ)) :
    Option Bool × Cache ℚ :=
  if !enabled then (none, cache)
  else
    let r :=
      if days ≤ 1 then
        get_intraday_change enabled fmp_enabled ttl now cache ticker todayStr fetchIntraday
      else
        get_price_change enabled fmp_enabled ttl now cache ticker startDate endDate fetchHist
    match r with
    | (some change, cache1) => (some (decide (|change| ≥ threshold_pct)), cache1)
    | (none, cache1) => (none, cache1)

/-- Helper: a cache lookup that misses is the pair `(none, second component)`. -/
theorem get_cached_miss_eq {α : Type} (ttl now : ℚ) (cache : Cache α) (key : String)
    (h : (get_cached ttl now cache key).1 = none) :
    get_cached ttl now cache key = (none, (get_cached ttl now cache key).2) := by
  rw [← h]

/-- C5: on a cache miss with the provider enabled, `get_price_change` returns
the percent change between first and last close rounded to 2 decimals when
the series has at least 2 rows and a positive first close, and `None` on a
short series or a non-positive first close; the percent-change computations
of `check_indicator` and `get_economic_indicator` are guarded at a zero
previous value. -/
theorem get_price_change_spec :
    (∀ (ttl now : ℚ) (cache : Cache ℚ) (ticker startDate endDate : String)
        (closes : List ℚ) (s e : ℚ),
      (get_cached ttl now cache (change_cache_key ticker startDate endDate)).1 = none →
      2 ≤ closes.length → closes.head? = some s → closes.getLast? = some e → 0 < s →
      (get_price_change true true ttl now cache ticker startDate endDate
          (Except.ok closes)).1 = some (round2 ((e - s) / s * 100))) ∧
    (∀ (ttl now : ℚ) (cache : Cache ℚ) (ticker startDate endDate : String)
        (closes : List ℚ),
      (get_cached ttl now cache (change_cache_key ticker startDate endDate)).1 = none →
      closes.length < 2 →
      (get_price_change true true ttl now cache ticker startDate endDate
          (Except.ok closes)).1 = none) ∧
    (∀ (ttl now : ℚ) (cache : Cache ℚ) (ticker startDate endDate : String)
        (closes : List ℚ) (s : ℚ),
      (get_cached ttl now cache (change_cache_key ticker startDate endDate)).1 = none →
      closes.head? = some s → s ≤ 0 →
      (get_price_change true true ttl now cache ticker startDate endDate
          (Except.ok closes)).1 = none) ∧
    (∀ v : ℚ, fredChangePct v 0 = 0) ∧
    (∀ v : ℚ, econChangePct v 0 = none) := by
  refine ⟨?_, ?_, ?_, ?_, ?_⟩
  · intro ttl now cache ticker startDate endDate closes s e hmiss hlen hh hl hs
    simp only [get_price_change]
    rw [get_cached_miss_eq _ _ _ _ hmiss]
    simp [hh, hl, hlen, hs]
  · intro ttl now cache ticker startDate endDate closes hmiss hlen
    simp only [get_price_change]
    rw [get_cached_miss_eq _ _ _ _ hmiss]
    simp [show ¬ 2 ≤ closes.length by omega]
  · intro ttl now cache ticker startDate endDate closes s hmiss hh hs
    simp only [get_price_change]
    rw [get_cached_miss_eq _ _ _ _ hmiss]
    by_cases hlen : 2 ≤ closes.length
    · rcases hl : closes.getLast? with _ | e
      · rw [List.getLast?_eq_none_iff] at hl
        subst hl
        cases hh
      · simp [hh, hl, hlen, not_lt.mpr hs]
    · simp [hlen]
  · intro v
    simp [fredChangePct]
  · intro v
    simp [econChangePct]

/-- Witness for C5: a two-row series from 100 to 110 yields a 10 percent
change. -/
theorem get_price_change_spec_witness :
    (get_price_change true true 900 0 (fun _ => none) "AAPL" "2024-01-01" "2024-01-08"
        (Except.ok [100, 110])).1 = some (round2 ((110 - 100) / 100 * 100)) := by
  exact get_price_change_spec.1 900 0 (fun _ => none) "AAPL" "2024-01-01" "2024-01-08"
    [100, 110] 100 110 rfl (by norm_num) rfl rfl (by norm_num)

/-- C6: `is_significant_move` is `None` when disabled; otherwise it is the
threshold comparison mapped over the intraday change when `days <= 1` and
over the `days`-day percent change when `days > 1` (so `None` exactly when
the underlying change is unavailable). -/
theorem is_significant_move_spec :
    (∀ (fmp_enabled : Bool) (ttl now : ℚ) (cache : Cache ℚ) (ticker : String)
        (threshold_pct : ℚ) (days : Int) (todayStr startDate endDate : String)
        (fetchIntraday : Except Unit (Option ℚ)) (fetchHist : Except Unit (List ℚ)),
      (is_significant_move false fmp_enabled ttl now cache ticker threshold_pct days
          todayStr startDate endDate fetchIntraday fetchHist).1 = none) ∧
    (∀ (fmp_enabled : Bool) (ttl now : ℚ) (cache : Cache ℚ) (ticker : String)
        (threshold_pct : ℚ) (days : Int) (todayStr startDate endDate : String)
        (fetchIntraday : Except Unit (Option ℚ)) (fetchHist : Except Unit (List ℚ)),
      days ≤ 1 →
      (is_significant_move true fmp_enabled ttl now cache ticker threshold_pct days
          todayStr startDate endDate fetchIntraday fetchHist).1 =
        Option.map (fun change => decide (|change| ≥ threshold_pct))
          (get_intraday_change true fmp_enabled ttl now cache ticker todayStr
            fetchIntraday).1) ∧
    (∀ (fmp_enabled : Bool) (ttl now : ℚ) (cache : Cache ℚ) (ticker : String)
        (threshold_pct : ℚ) (days : Int) (todayStr startDate endDate : String)
        (fetchIntraday : Except Unit (Option ℚ)) (fetchHist : Except Unit (List ℚ)),
      1 < days →
      (is_significant_move true fmp_enabled ttl now cache ticker threshold_pct days
          todayStr startDate endDate fetchIntraday fetchHist).1 =
        Option.map (fun change => decide (|change| ≥ threshold_pct))
          (get_price_change true fmp_enabled ttl now cache ticker startDate endDate
            fetchHist).1) := by
  refine ⟨?_, ?_, ?_⟩
  · intro fmp_enabled ttl now cache ticker threshold_pct days todayStr startDate endDate fI fH
    simp [is_significant_move]
  · intro fmp_enabled ttl now cache ticker threshold_pct days todayStr startDate endDate fI fH h
    simp only [is_significant_move, Bool.not_true, if_pos h]
    rcases hr : get_intraday_change true fmp_enabled ttl now cache ticker todayStr fI
      with ⟨c?, cache1⟩
    cases c? <;> simp
  · intro fmp_enabled ttl now cache ticker threshold_pct days todayStr startDate endDate fI fH h
    simp only [is_significant_move, Bool.not_true, if_neg (by omega : ¬ days ≤ 1)]
    rcases hr : get_price_change true fmp_enabled ttl now cache ticker startDate endDate fH
      with ⟨c?, cache1⟩
    cases c? <;> simp

/-- Witness for C6: an intraday change of 3 percent against a 2 percent
threshold with `days = 1`. -/
theorem is_significant_move_spec_witness :
    (is_significant_move true true 900 0 (fun _ => none) "AAPL" 2 1 "2024-01-02"
        "2024-01-01" "2024-01-02" (Except.ok (some 3)) (Except.ok [])).1 =
      Option.map (fun change => decide (|change| ≥ 2))
        (get_intraday_change true true 900 0 (fun _ => none) "AAPL" "2024-01-02"
          (Except.ok (some 3))).1 := by
  exact is_significant_move_spec.2.1 true 900 0 (fun _ => none) "AAPL" 2 1 "2024-01-02"
    "2024-01-01" "2024-01-02" (Except.ok (some 3)) (Except.ok []) (by norm_num)

/-- C7: every fetch operation returns `None` when the OpenBB call raises (the
exception is swallowed by the `try`/`except` and never propagates). -/
theorem fetch_error_returns_none :
    (∀ (enabled fmp_enabled : Bool) (ttl now : ℚ) (cache : Cache ℚ)
        (ticker datePart : String),
      (get_cached ttl now cache (price_cache_key ticker datePart)).1 = none →
      (get_price enabled fmp_enabled ttl now cache ticker datePart
          (Except.error ())).1 = none) ∧
    (∀ (enabled fmp_enabled : Bool) (ttl now : ℚ) (cache : Cache ℚ)
        (ticker startDate endDate : String),
      (get_cached ttl now cache (change_cache_key ticker startDate endDate)).1 = none →
      (get_price_change enabled fmp_enabled ttl now cache ticker startDate endDate
          (Except.error ())).1 = none) ∧
    (∀ (enabled fmp_enabled : Bool) (ttl now : ℚ) (cache : Cache ℚ)
        (ticker dateStr : String),
      (get_cached ttl now cache (intraday_cache_key ticker dateStr)).1 = none →
      (get_intraday_change enabled fmp_enabled ttl now cache ticker dateStr
          (Except.error ())).1 = none) ∧
    (∀ (enabled fmp_enabled : Bool) (ttl now : ℚ) (cache : Cache (List (String × ℚ)))
        (ticker : String) (days : Int),
      (get_cached ttl now cache (history_cache_key ticker days)).1 = none →
      (get_historical_prices enabled fmp_enabled ttl now cache ticker days
          (Except.error ())).1 = none) ∧
    (∀ (α : Type) (enabled fmp_enabled : Bool) (ttl now : ℚ) (cache : Cache α)
        (ticker : String),
      (get_cached ttl now cache (profile_cache_key ticker)).1 = none →
      (get_company_profile enabled fmp_enabled ttl now cache ticker
          (Except.error ())).1 = none) ∧
    (∀ (α : Type) (enabled fmp_enabled : Bool) (ttl now : ℚ) (cache : Cache α)
        (ticker : String),
      (get_cached ttl now cache (financials_cache_key ticker)).1 = none →
      (get_financial_summary enabled fmp_enabled ttl now cache ticker
          (Except.error ())).1 = none) ∧
    (∀ (α : Type) (enabled polygon_enabled : Bool) (ttl now : ℚ)
        (cache : Cache (List α)) (ticker : String) (limit : Int),
      (get_cached ttl now cache (news_cache_key ticker limit)).1 = none →
      (get_news enabled polygon_enabled ttl now cache ticker limit
          (Except.error ())).1 = none) ∧
    (∀ (enabled fred_enabled : Bool) (ttl now : ℚ) (cache : Cache EconomicIndicator)
        (symbol : String) (name : Option String),
      (get_cached ttl now cache (fred_cache_key symbol)).1 = none →
      (get_economic_indicator enabled fred_enabled ttl now cache symbol name
          (Except.error ())).1 = none) ∧
    (∀ enabled : Bool, get_indicator_value enabled (Except.error ()) = none) := by
  refine ⟨?_, ?_, ?_, ?_, ?_, ?_, ?_, ?_, ?_⟩
  · intro enabled fmp_enabled ttl now cache ticker datePart hmiss
    simp only [get_price]
    split
    · rfl
    · rw [get_cached_miss_eq _ _ _ _ hmiss]
  · intro enabled fmp_enabled ttl now cache ticker startDate endDate hmiss
    simp only [get_price_change]
    split
    · rfl
    · rw [get_cached_miss_eq _ _ _ _ hmiss]
  · intro enabled fmp_enabled ttl now cache ticker dateStr hmiss
    simp only [get_intraday_change]
    split
    · rfl
    · rw [get_cached_miss_eq _ _ _ _ hmiss]
  · intro enabled fmp_enabled ttl now cache ticker days hmiss
    simp only [get_historical_prices]
    split
    · rfl
    · rw [get_cached_miss_eq _ _ _ _ hmiss]
  · intro α enabled fmp_enabled ttl now cache ticker hmiss
    simp only [get_company_profile]
    split
    · rfl
    · rw [get_cached_miss_eq _ _ _ _ hmiss]
  · intro α enabled fmp_enabled ttl now cache ticker hmiss
    simp only [get_financial_summary]
    split
    · rfl
    · rw [get_cached_miss_eq _ _ _ _ hmiss]
  · intro α enabled polygon_enabled ttl now cache ticker limit hmiss
    simp only [get_news]
    split
    · rfl
    · rw [get_cached_miss_eq _ _ _ _ hmiss]
  · intro enabled fred_enabled ttl now cache symbol name hmiss
    simp only [get_economic_indicator]
    split
    · rfl
    · rw [get_cached_miss_eq _ _ _ _ hmiss]
  · intro enabled
    cases enabled <;> rfl

/-- Witness for C7: a raising quote call yields `None` from `get_price`, a
raising FRED call yields `None` from `get_economic_indicator`, and
`get_indicator_value` swallows the raise as well. -/
theorem fetch_error_returns_none_witness :
    (get_price true true 900 0 (fun _ => none) "AAPL" "latest"
        (Except.error ())).1 = none ∧
    (get_economic_indicator true true 900 0 (fun _ => none) "DGS10" (some "10Y")
        (Except.error ())).1 = none ∧
    get_indicator_value true (Except.error ()) = none := by
  refine ⟨?_, ?_, ?_⟩
  · exact fetch_error_returns_none.1 true true 900 0 (fun _ => none) "AAPL" "latest" rfl
  · exact fetch_error_returns_none.2.2.2.2.2.2.2.1 true true 900 0 (fun _ => none)
      "DGS10" (some "10Y") rfl
  · exact fetch_error_returns_none.2.2.2.2.2.2.2.2 true

/-- One iteration of the `check_all_indicators` loop (lines 249-256): `step`
abstracts `self.check_indicator(key, config)` inside the per-indicator
`try`; a `none` outcome models an exception escaping `check_indicator`
(which can only happen before its store update, so the store is kept), and
is skipped by the `except ... continue`. -/
def check_all_step
    (step : String → IndicatorConfig → LastValues →
      Option (Option EconomicAlert × LastValues))
    (acc : List EconomicAlert × LastValues) (kc : String × IndicatorConfig) :
    List EconomicAlert × LastValues :=
  match step kc.1 kc.2 acc.2 with
  | none => acc
  | some (none, lv1) => (acc.1, lv1)
  | some (some alert, lv1) => (acc.1 ++ [alert], lv1)

/-- `check_all_indicators`: run the loop over the configured indicators (an
insertion-ordered association list, like the Python dict) collecting the
alerts; the empty list when the monitor is disabled. -/
def check_all_indicators (enabled : Bool)
    (indicators : List (String × IndicatorConfig))
    (step : String → IndicatorConfig → LastValues →
      Option (Option EconomicAlert × LastValues))
    (lv : LastValues) : List EconomicAlert × LastValues :=
  if !enabled then ([], lv)
  else indicators.foldl (check_all_step step) ([], lv)

/-- Helper: the loop's accumulator only ever grows on the left. -/
theorem check_all_foldl_acc
    (step : String → IndicatorConfig → LastValues →
      Option (Option EconomicAlert × LastValues))
    (indicators : List (String × IndicatorConfig)) :
    ∀ acc : List EconomicAlert × LastValues,
      indicators.foldl (check_all_step step) acc =
        (acc.1 ++ (indicators.foldl (check_all_step step) ([], acc.2)).1,
         (indicators.foldl (check_all_step step) ([], acc.2)).2) := by
  induction indicators with
  | nil => intro acc; simp
  | cons kc rest ih =>
    intro acc
    simp only [List.foldl_cons]
    rw [ih (check_all_step step acc kc), ih (check_all_step step ([], acc.2) kc)]
    have hfst : (check_all_step step acc kc).1 =
        acc.1 ++ (check_all_step step ([], acc.2) kc).1 := by
      unfold check_all_step
      rcases step kc.1 kc.2 acc.2 with _ | ⟨_ | alert, lv1⟩ <;> simp
    have hsnd : (check_all_step step acc kc).2 =
        (check_all_step step ([], acc.2) kc).2 := by
      unfold check_all_step
      rcases step kc.1 kc.2 acc.2 with _ | ⟨_ | alert, lv1⟩ <;> simp
    rw [hfst, hsnd, List.append_assoc]

/-- C8: `check_all_indicators` of a disabled monitor is the empty list with
the store untouched; on the empty indicator list it is empty; and each
leading indicator either raises (it is skipped and the rest still runs),
yields no alert (the rest runs on its updated store), or yields an alert
that is prepended to the alerts of the rest, keeping iteration order. -/
theorem check_all_indicators_spec :
    (∀ indicators step lv, check_all_indicators false indicators step lv = ([], lv)) ∧
    (∀ step lv, check_all_indicators true [] step lv = ([], lv)) ∧
    (∀ key config rest step lv,
      (step key config lv = none →
        check_all_indicators true ((key, config) :: rest) step lv =
          check_all_indicators true rest step lv) ∧
      (∀ lv1, step key config lv = some (none, lv1) →
        check_all_indicators true ((key, config) :: rest) step lv =
          check_all_indicators true rest step lv1) ∧
      (∀ alert lv1, step key config lv = some (some alert, lv1) →
        check_all_indicators true ((key, config) :: rest) step lv =
          (alert :: (check_all_indicators true rest step lv1).1,
           (check_all_indicators true rest step lv1).2))) := by
  refine ⟨fun indicators step lv => rfl, fun step lv => rfl, ?_⟩
  intro key config rest step lv
  refine ⟨?_, ?_, ?_⟩
  · intro h
    simp only [check_all_indicators, Bool.not_true, Bool.false_eq_true, if_false,
      List.foldl_cons, check_all_step, h]
  · intro lv1 h
    simp only [check_all_indicators, Bool.not_true, Bool.false_eq_true, if_false,
      List.foldl_cons, check_all_step, h]
  · intro alert lv1 h
    simp only [check_all_indicators, Bool.not_true, Bool.false_eq_true, if_false,
      List.foldl_cons, check_all_step, h, List.nil_append]
    rw [check_all_foldl_acc step rest ([alert], lv1)]
    simp

/-- Witness for C8: a raising first indicator is skipped while the second
still produces its outcome. -/
theorem check_all_indicators_spec_witness :
    check_all_indicators true
        [("cpi", ⟨"CPIAUCSL", "Consumer Price Index", some (some 1), some none⟩),
         ("sp500", ⟨"SP500", "S&P 500 Index", some (some 2), some none⟩)]
        (fun key _ lv => if key = "cpi" then none else some (none, lv)) (fun _ => none) =
      check_all_indicators true
        [("sp500", ⟨"SP500", "S&P 500 Index", some (some 2), some none⟩)]
        (fun key _ lv => if key = "cpi" then none else some (none, lv)) (fun _ => none) := by
  exact ((check_all_indicators_spec.2.2 "cpi"
    ⟨"CPIAUCSL", "Consumer Price Index", some (some 1), some none⟩
    [("sp500", ⟨"SP500", "S&P 500 Index", some (some 2), some none⟩)]
    (fun key _ lv => if key = "cpi" then none else some (none, lv))
    (fun _ => none)).1 (by simp))

/-! ## PolygonNewsScraper (src/polygon_scraper.py)

The watchlist operations `add_ticker` / `remove_ticker` (lines 72-84) and
`fetch_news_for_ticker` (lines 86-160). -/

/-- `add_ticker`: upper-case the ticker and append it when absent. -/
def add_ticker (tickers : List String) (ticker : String) : List String :=
  let t := ticker.toUpper
  if t ∈ tickers then tickers else tickers ++ [t]

/-- `remove_ticker`: upper-case the ticker and `list.remove` it when present
(Python's `remove` drops the first occurrence). -/
def remove_ticker (tickers : List String) (ticker : String) : List String :=
  let t := ticker.toUpper
  if t ∈ tickers then tickers.erase t else tickers

/-- C9: `add_ticker` ensures membership of the upper-cased ticker, appends
only when absent (so it is idempotent, also across tickers with the same
upper-casing), and `remove_ticker` erases the first occurrence when present
and is the identity otherwise; both keep all other entries in order. -/
theorem watchlist_add_remove_spec :
    (∀ (tickers : List String) (ticker : String),
      ticker.toUpper ∈ add_ticker tickers ticker) ∧
    (∀ (tickers : List String) (ticker : String),
      ticker.toUpper ∈ tickers → add_ticker tickers ticker = tickers) ∧
    (∀ (tickers : List String) (ticker : String),
      ticker.toUpper ∉ tickers →
        add_ticker tickers ticker = tickers ++ [ticker.toUpper]) ∧
    (∀ (tickers : List String) (ticker ticker2 : String),
      ticker2.toUpper = ticker.toUpper →
        add_ticker (add_ticker tickers ticker) ticker2 = add_ticker tickers ticker) ∧
    (∀ (tickers : List String) (ticker : String),
      ticker.toUpper ∈ tickers →
        remove_ticker tickers ticker = tickers.erase ticker.toUpper ∧
        ∃ l1 l2, ticker.toUpper ∉ l1 ∧ tickers = l1 ++ ticker.toUpper :: l2 ∧
          remove_ticker tickers ticker = l1 ++ l2) ∧
    (∀ (tickers : List String) (ticker : String),
      ticker.toUpper ∉ tickers → remove_ticker tickers ticker = tickers) := by
  refine ⟨?_, ?_, ?_, ?_, ?_, ?_⟩
  · intro tickers ticker
    by_cases hmem : ticker.toUpper ∈ tickers
    · simp [add_ticker, hmem]
    · simp [add_ticker, hmem]
  · intro tickers ticker h
    simp [add_ticker, h]
  · intro tickers ticker h
    simp [add_ticker, h]
  · intro tickers ticker ticker2 h
    by_cases hmem : ticker.toUpper ∈ tickers
    · simp [add_ticker, h, hmem]
    · simp [add_ticker, h, hmem]
  · intro tickers ticker h
    refine ⟨by simp [remove_ticker, h], ?_⟩
    obtain ⟨l1, l2, hnot, heq, herase⟩ := List.exists_erase_eq h
    exact ⟨l1, l2, hnot, heq, by simp [remove_ticker, h, herase]⟩
  · intro tickers ticker h
    simp [remove_ticker, h]

/-- Witness for C9: adding "aapl" twice to the empty watchlist appends its
upper-casing once; removing from the empty watchlist is the identity. -/
theorem watchlist_add_remove_spec_witness :
    add_ticker (add_ticker [] "aapl") "aapl" = add_ticker [] "aapl" ∧
    add_ticker [] "aapl" = [] ++ ["aapl".toUpper] ∧
    remove_ticker [] "aapl" = [] := by
  refine ⟨?_, ?_, ?_⟩
  · exact watchlist_add_remove_spec.2.2.2.1 [] "aapl" "aapl" rfl
  · exact watchlist_add_remove_spec.2.2.1 [] "aapl" (by simp)
  · exact watchlist_add_remove_spec.2.2.2.2.2 [] "aapl" (by simp)

/-- `NewsArticle` dataclass. -/
structure NewsArticle where
  url : String
  title : String
  content : String
  source : String
  published_at : Int
deriving DecidableEq

/-- One row of the Polygon news dataframe with the fields
`fetch_news_for_ticker` reads. `publisher_name` is `some n` when the row's
`publisher` entry is a dict carrying a `name` (every other shape resolves to
the `"Polygon"` fallback). -/
structure NewsRow where
  published_at : Option String
  url : String
  article_url : Option String
  publisher_name : Option String
  title : Option String
  description : Option String

/-- The published timestamp of a row (lines 117-125): parse the iso string
when present and truthy, fall back to `datetime.now()` on absence or parse
failure. `parseIso` abstracts `datetime.fromisoformat` applied after the
`replace("Z", "+00:00")` fix-up. -/
def row_published (now : Int) (parseIso : String → Option Int) (r : NewsRow) : Int :=
  match r.published_at with
  | some s => if s != "" then (parseIso (s.replace "Z" "+00:00")).getD now else now
  | none => now

/-- One loop body of `fetch_news_for_ticker` (lines 115-149): build the
article URL (falling back to `article_url`, then to a synthesized
`polygon://` identifier) and the `Polygon/`-prefixed source. `iso` abstracts
`datetime.isoformat`. -/
def process_row (now : Int) (parseIso : String → Option Int) (iso : Int → String)
    (ticker : String) (r : NewsRow) : NewsArticle :=
  let published_at := row_published now parseIso r
  let url := r.url
  let url :=
    if url = "" then
      match r.article_url with
      | some a => a
      | none => url
    else url
  let url :=
    if url = "" then "polygon://news/" ++ ticker ++ "/" ++ iso published_at
    else url
  let source :=
    match r.publisher_name with
    | some n => n
    | none => "Polygon"
  { url := url
    title := r.title.getD "No Title"
    content := r.description.getD (r.title.getD "")
    source := "Polygon/" ++ source
    published_at := published_at }

/-- `fetch_news_for_ticker`: map the loop body over the fetched rows; `[]`
when disabled, on exception, or on an empty dataframe. -/
def fetch_news_for_ticker (enabled : Bool) (now : Int)
    (parseIso : String → Option Int) (iso : Int → String) (ticker : String)
    (fetch : Except Unit (List NewsRow)) : List NewsArticle :=
  if !enabled then []
  else
    match fetch with
    | .error _ => []
    | .ok rows => rows.map (process_row now parseIso iso ticker)

/-- Helper: a synthesized `polygon://` identifier is never the empty string. -/
theorem polygon_url_ne_empty (t y : String) :
    "polygon://news/" ++ t ++ "/" ++ y ≠ "" := by
  intro h
  have h2 := congrArg String.length h
  rw [String.length_append, String.length_append, String.length_append] at h2
  have h3 : String.length "polygon://news/" = 15 := rfl
  have h4 : String.length "" = 0 := rfl
  omega

/-- C10: every article produced by `fetch_news_for_ticker` has a non-empty
URL and a source of the form `Polygon/...`; a row with no `url` and no
`article_url` gets the synthesized `polygon://news/{ticker}/{published}`
identifier. -/
theorem fetch_news_articles_spec :
    (∀ (enabled : Bool) (now : Int) (parseIso : String → Option Int)
        (iso : Int → String) (ticker : String) (fetch : Except Unit (List NewsRow))
        (a : NewsArticle),
      a ∈ fetch_news_for_ticker enabled now parseIso iso ticker fetch →
      a.url ≠ "" ∧ ∃ rest, a.source = "Polygon/" ++ rest) ∧
    (∀ (now : Int) (parseIso : String → Option Int) (iso : Int → String)
        (ticker : String) (r : NewsRow),
      r.url = "" → r.article_url.getD "" = "" →
      (process_row now parseIso iso ticker r).url =
        "polygon://news/" ++ ticker ++ "/" ++ iso (row_published now parseIso r)) := by
  constructor
  · intro enabled now parseIso iso ticker fetch a ha
    unfold fetch_news_for_ticker at ha
    split at ha
    · cases ha
    · rcases fetch with e | rows
      · cases ha
      · obtain ⟨r, hr, rfl⟩ := List.mem_map.mp ha
        constructor
        · simp only [process_row]
          repeat' split
          all_goals first
            | exact polygon_url_ne_empty _ _
            | assumption
            | simp_all
        · exact ⟨_, rfl⟩
  · intro now parseIso iso ticker r h1 h2
    rcases hr : r.article_url with _ | a2
    · simp [process_row, h1, hr]
    · rw [hr] at h2
      simp only [Option.getD_some] at h2
      simp [process_row, h1, hr, h2]

/-- Witness for C10: a row with empty `url`, no `article_url` and no
publisher yields the synthesized identifier and a `Polygon/` source. -/
theorem fetch_news_articles_spec_witness :
    ((process_row 0 (fun _ => none) (fun _ => "1970-01-01T00:00:00") "AAPL"
        ⟨none, "", none, none, some "T", none⟩).url ≠ "" ∧
      ∃ rest, (process_row 0 (fun _ => none) (fun _ => "1970-01-01T00:00:00") "AAPL"
        ⟨none, "", none, none, some "T", none⟩).source = "Polygon/" ++ rest) ∧
    (process_row 0 (fun _ => none) (fun _ => "1970-01-01T00:00:00") "AAPL"
        ⟨none, "", none, none, some "T", none⟩).url =
      "polygon://news/" ++ "AAPL" ++ "/" ++
        (fun _ : Int => "1970-01-01T00:00:00")
          (row_published 0 (fun _ => none) ⟨none, "", none, none, some "T", none⟩) := by
  constructor
  · exact fetch_news_articles_spec.1 true 0 (fun _ => none)
      (fun _ => "1970-01-01T00:00:00") "AAPL"
      (Except.ok [⟨none, "", none, none, some "T", none⟩]) _
      (by simp [fetch_news_for_ticker])
  · exact fetch_news_articles_spec.2 0 (fun _ => none)
      (fun _ => "1970-01-01T00:00:00") "AAPL" ⟨none, "", none, none, some "T", none⟩
      rfl rfl
